import Mathlib

/-
Verification of the FastAPI backend in main.py: a tool-augmented streaming
assistant service with auxiliary endpoints (/location, /preferences,
/add_preference, /tourguide, /query_assistant).

The embedding models the module-level mutable state of main.py (the shared
Assistant object and the process-wide user_preferences list) by explicit state
passing, and the streamed HTTP responses as a media type plus the list of
chunks the generator yields.  The assistant loop itself lives in
swag/assistant.py, which is not part of the visible source; where a claim
depends on it, the loop is modelled from the spec and marked as such.
-/

namespace Swag

/-- External tools imported from swag.tools in main.py. -/
inductive Tool where
  | SearchInternet
  | ReadWebsite
  | SearchForNearbyPlacesOfType
  | Geocode
  | GetDistanceMatrix
  | OptimizeRoute
deriving DecidableEq, Repr

/-- Result of geocoder.ip ("me"): the fields main.py reads (city, country,
latlng as a latitude/longitude pair).  Coordinates are modelled as rationals;
Python float truthiness (`not x`) is `x = 0`. -/
structure GeoResult where
  city : String
  country : String
  latlng : Rat × Rat
deriving DecidableEq, Repr

/-- JSON values, for stating exactly which fields an endpoint's response
object carries. -/
inductive JsonVal where
  | str (s : String)
  | num (q : Rat)
  | arr (elems : List JsonVal)
deriving Repr

/-- GET /location handler (main.py lines 65-68): performs the IP-based
geolocation lookup and returns the object
\x7b"city": g.city, "country": g.country, "latlng": g.latlng\x7d. -/
def get_location (g : GeoResult) : List (String × JsonVal) :=
  [("city", JsonVal.str g.city),
   ("country", JsonVal.str g.country),
   ("latlng", JsonVal.arr [JsonVal.num g.latlng.1, JsonVal.num g.latlng.2])]

/-- POST /add_preference handler (main.py lines 71-74): appends to the
process-wide user_preferences list and returns its message.  State-passing
embedding of the module-level mutable list. -/
def add_preference (user_preferences : List String) (preference : String) :
    List String × String :=
  (user_preferences ++ [preference], "Added preference: " ++ preference)

/-- GET /preferences handler (main.py lines 77-79): returns the process-wide
user_preferences list. -/
def get_preferences (user_preferences : List String) : List String :=
  user_preferences

/-- A run of /add_preference requests from arbitrary callers (first component
of each pair) against the single process-wide list; returns the final list and
the response message of each call, in call order. -/
def processAddCalls (user_preferences : List String) :
    List (Nat × String) → List String × List String
  | [] => (user_preferences, [])
  | (_, p) :: calls =>
    let r := add_preference user_preferences p
    let rest := processAddCalls r.1 calls
    (rest.1, r.2 :: rest.2)

/-- The TourGuideRequest model of main.py (lines 39-44). -/
structure TourGuideRequest where
  base_image : String
  masked_image : String
  location : String
  lat : Rat
  lon : Rat
deriving DecidableEq, Repr

/-- The five positional arguments main.py passes to run_everywhere_tour_guide
(lines 92-98). -/
structure TourGuideArgs where
  base_image : String
  masked_image : String
  location : String
  lat : Rat
  lon : Rat
deriving DecidableEq, Repr

/-- POST /tourguide handler (main.py lines 81-100): if request.location is
falsy (the empty string) it is replaced by "city, country" from the
IP-geolocation dependency; if request.lat or request.lon is falsy (equal to
0.0) both are replaced by the geolocated latlng; the resulting arguments are
handed to run_everywhere_tour_guide. -/
def query_everywhere_tourguide (request : TourGuideRequest) (location : GeoResult) :
    TourGuideArgs :=
  let loc := if request.location = "" then location.city ++ ", " ++ location.country
             else request.location
  let coords := if request.lat = 0 ∨ request.lon = 0
                then (location.latlng.1, location.latlng.2)
                else (request.lat, request.lon)
  { base_image := request.base_image
    masked_image := request.masked_image
    location := loc
    lat := coords.1
    lon := coords.2 }

/-- The Query model of main.py (lines 56-58). -/
structure Query where
  query_type : String
  query : String
deriving DecidableEq, Repr

/-- The module-level Assistant object of main.py (lines 29-32), as far as
main.py manipulates it: its mutable system prompt and its active tool set
(define_tools replaces the set). -/
structure Assistant where
  system : String
  tools : List Tool
deriving DecidableEq, Repr

/-- The tool list main.py passes to assistant.define_tools for a trip query
(line 127-129). -/
def tripTools : List Tool :=
  [Tool.SearchInternet, Tool.ReadWebsite, Tool.Geocode,
   Tool.GetDistanceMatrix, Tool.OptimizeRoute]

/-- The tool list main.py passes to assistant.define_tools for a restaurant or
place query (line 152). -/
def restaurantPlaceTools : List Tool :=
  [Tool.SearchInternet, Tool.ReadWebsite, Tool.SearchForNearbyPlacesOfType]

/-- The trip system prompt assigned to assistant.system (main.py lines
114-126). -/
def system_trip : String :=
  "\n            You are an AI trip planner.\n            The user wants to travel, given a set of places and waypoints.\n\n            Your goal is to create a detailed trip plan including:\n            1. Route information (directions, distances, estimated travel times).\n            2. Suggested activities and attractions along the route and at the destination.\n            3. Potential accommodation options at the destination.\n            4. Any relevant warnings or advisories for the trip (e.g., road closures, weather).\n\n            Use tools to gather the necessary information. Provide the plan.\n            "

/-- The formatted restaurant/place system prompt (main.py lines 131-151):
system_template.format with query_type, location, preferences_str,
additional_info and action substituted. -/
def system_restaurant_place (query_type location_str preferences_str : String) :
    String :=
  let additional_info :=
    if query_type = "restaurant" then
      "recommended menu options, expected price to eat there & overall restaurant rating"
    else
      "recommended activities, expected costs & overall ratings"
  let action := if query_type = "restaurant" then "eat" else "visit"
  "\n            You are an AI assistant helping a user find " ++ query_type ++
    "s in " ++ location_str ++ ".\n            The user is looking for a " ++
    query_type ++ " to " ++ action ++
    ".\n            The user\x27s preferences are: " ++ preferences_str ++
    ".\n            Your goal is to build a report of the top 5 " ++ query_type ++
    "s that might suit the user\x27s preferences,\n            including " ++
    additional_info ++ "."

/-- The message generate_response yields for an unsupported query_type
(main.py line 154). -/
def invalidQueryTypeMessage (query_type : String) : String :=
  "Invalid query type: " ++ query_type ++
    ". Supported types are \x27restaurant\x27, \x27place\x27, and \x27trip\x27."

/-- The setup branch of generate_response (main.py lines 113-155): on a
supported query_type it mutates the shared assistant (assigns assistant.system
and calls assistant.define_tools) and returns the updated object; on an
unsupported type it returns none (the generator yields the error message and
returns without touching the assistant). -/
def setupAssistant (assistant : Assistant) (query : Query)
    (location_str preferences_str : String) : Option Assistant :=
  if query.query_type = "trip" then
    some { assistant with system := system_trip, tools := tripTools }
  else if query.query_type = "restaurant" ∨ query.query_type = "place" then
    some { assistant with
              system := system_restaurant_place query.query_type location_str
                preferences_str
              tools := restaurantPlaceTools }
  else
    none

/-- The generate_response async generator of main.py (lines 112-159): run the
setup branch, then stream the assistant loop's chunks for the configured
assistant (`async for response_chunk in assistant (query.query)`, abstracted
by runAssistant); for an unsupported query_type, yield the single error
message and return.  Returns the shared assistant after the request together
with the list of yielded chunks. -/
def generate_response (assistant : Assistant) (query : Query)
    (location_str preferences_str : String)
    (runAssistant : Assistant → String → List String) :
    Assistant × List String :=
  match setupAssistant assistant query location_str preferences_str with
  | some a => (a, runAssistant a query.query)
  | none => (assistant, [invalidQueryTypeMessage query.query_type])

/-- A streamed HTTP response: FastAPI media type, status code (FastAPI default
200 for StreamingResponse) and the chunks its body generator yields. -/
structure StreamingResponse where
  media_type : String
  status_code : Nat
  chunks : List String
deriving DecidableEq, Repr

/-- POST /query_assistant handler (main.py lines 103-161): reads the shared
preference list and the IP geolocation, builds preferences_str and
location_str, and returns StreamingResponse over generate_response with media
type "text/plain".  Returns the shared assistant after the request alongside
the response. -/
def query_assistant (assistant : Assistant) (user_preferences : List String)
    (g : GeoResult) (query : Query)
    (runAssistant : Assistant → String → List String) :
    Assistant × StreamingResponse :=
  let preferences_str := String.intercalate ", " (get_preferences user_preferences)
  let location_str := g.city ++ ", " ++ g.country
  let r := generate_response assistant query location_str preferences_str runAssistant
  (r.1, { media_type := "text/plain", status_code := 200, chunks := r.2 })

/-- Two concurrent /query_assistant requests against the single module-level
assistant of main.py: the async generator bodies run lazily when the streams
are consumed, so the event loop can run request 1's setup and then request 2's
setup on the same shared object.  Returns the shared assistant's active tool
set right after request 1's setup (the set request 1 resolved) and right after
request 2's setup (the set the shared object holds from then on, while request
1's loop is still streaming). -/
def sharedAssistantAfterSetups (init : Assistant) (q1 q2 : Query)
    (location_str preferences_str : String) : List Tool × List Tool :=
  let s1 := (setupAssistant init q1 location_str preferences_str).getD init
  let s2 := (setupAssistant s1 q2 location_str preferences_str).getD s1
  (s1.tools, s2.tools)

/-- Modelled from the spec: swag/assistant.py (the Assistant Loop invoked as
`assistant (query.query)`) is not part of the visible source.  Per the spec,
each round's model response either completes with no tool calls or requests
one or more tool calls. -/
inductive ModelTurn where
  | final (text : String)
  | toolCalls (requests : List String)
deriving DecidableEq, Repr

/-- Modelled from the spec: terminal outcomes of the Assistant Loop — Done,
or Failed with the LoopLimitExceeded condition. -/
inductive LoopOutcome where
  | done
  | failedLoopLimitExceeded
deriving DecidableEq, Repr

/-- Modelled from the spec: the Assistant Loop round recursion of swag's
assistant (absent from the visible source).  With `fuel` remaining rounds,
round `round` sends the conversation and reads the model's turn: a final turn
ends in Done, a tool-call turn executes the tools and starts the next round;
with no rounds remaining the loop ends Failed with LoopLimitExceeded instead
of running on.  Returns the outcome and the number of model rounds it
performed. -/
def assistantLoopRounds (model : Nat → ModelTurn) :
    Nat → Nat → LoopOutcome × Nat
  | 0, _ => (LoopOutcome.failedLoopLimitExceeded, 0)
  | fuel + 1, round =>
    match model round with
    | ModelTurn.final _ => (LoopOutcome.done, 1)
    | ModelTurn.toolCalls _ =>
      let r := assistantLoopRounds model fuel (round + 1)
      (r.1, r.2 + 1)

/-- Modelled from the spec: one full run of the Assistant Loop with the
configured maximum round count, starting at round 0. -/
def runAssistantLoop (model : Nat → ModelTurn) (maxRounds : Nat) :
    LoopOutcome × Nat :=
  assistantLoopRounds model maxRounds 0

/-- Modelled from the spec: a tool-call request issued by the model inside one
turn (tool name plus opaque arguments). -/
structure ToolCallRequest where
  toolName : String
  arguments : String
deriving DecidableEq, Repr

/-- Modelled from the spec: a tool-call result correlated to its request. -/
structure ToolCallResult where
  toolName : String
  content : String
deriving DecidableEq, Repr

/-- Modelled from the spec: one turn in a Conversation — user text, assistant
text, or a tool-result record. -/
inductive Message where
  | user (content : String)
  | assistantText (content : String)
  | toolResult (result : ToolCallResult)
deriving DecidableEq, Repr

/-- Modelled from the spec: concurrent execution of one turn's N tool calls.
The completion order is an arbitrary list of request indices (any permutation
of 0..N-1); each completed execution delivers its request index paired with
its result, in completion order. -/
def completeInOrder (requests : List ToolCallRequest)
    (execute : ToolCallRequest → ToolCallResult)
    (completionOrder : List Nat) : List (Nat × ToolCallResult) :=
  completionOrder.filterMap
    (fun i => (requests.get? i).map (fun r => (i, execute r)))

/-- Modelled from the spec: the loop appends the turn's ToolCallResults to the
Conversation keyed by request index, walking the request indices in the order
the model issued the requests, regardless of the order executions
completed. -/
def appendToolResults (conversation : List Message)
    (requests : List ToolCallRequest)
    (completed : List (Nat × ToolCallResult)) : List Message :=
  conversation ++
    (List.range requests.length).filterMap
      (fun i => (completed.lookup i).map (fun res => Message.toolResult res))

/-! Theorems. -/

/-- C7: the /location endpoint returns an object with exactly the fields
city, country and latlng, each populated from the IP-based geolocation
lookup. -/
theorem get_location_fields (g : GeoResult) :
    (get_location g).map Prod.fst = ["city", "country", "latlng"] ∧
    List.lookup "city" (get_location g) = some (JsonVal.str g.city) ∧
    List.lookup "country" (get_location g) = some (JsonVal.str g.country) ∧
    List.lookup "latlng" (get_location g) =
      some (JsonVal.arr [JsonVal.num g.latlng.1, JsonVal.num g.latlng.2]) := by
  refine ⟨rfl, ?_, ?_, ?_⟩ <;> rfl

/-- Helper for C8: a run of /add_preference calls appends the submitted
preferences, in call order, to whatever the shared list already holds, and
answers each call with its message. -/
theorem processAddCalls_eq (init : List String) (calls : List (Nat × String)) :
    processAddCalls init calls =
      (init ++ calls.map Prod.snd,
       calls.map (fun c => "Added preference: " ++ c.2)) := by
  induction calls generalizing init with
  | nil => simp [processAddCalls]
  | cons c calls ih =>
    obtain ⟨caller, p⟩ := c
    simp [processAddCalls, add_preference, ih]

/-- C8: the preference list is one process-wide list shared by all callers:
every /add_preference call appends its preference and answers
"Added preference: p", and a later /preferences call by any caller returns
every preference added in the process, in insertion order. -/
theorem preferences_process_wide (calls : List (Nat × String)) :
    get_preferences (processAddCalls [] calls).1 = calls.map Prod.snd ∧
    (processAddCalls [] calls).2 =
      calls.map (fun c => "Added preference: " ++ c.2) := by
  simp [get_preferences, processAddCalls_eq]

/-- C10: for every /tourguide request in which lat or lon equals 0.0 the
handler replaces both coordinates with the IP-geolocated values, and when
location is the empty string it replaces it with "city, country", before
invoking run_everywhere_tour_guide; a supplied 0.0 coordinate is never passed
through. -/
theorem tourguide_fills_defaults (request : TourGuideRequest)
    (location : GeoResult) :
    ((request.lat = 0 ∨ request.lon = 0) →
      (query_everywhere_tourguide request location).lat = location.latlng.1 ∧
      (query_everywhere_tourguide request location).lon = location.latlng.2) ∧
    (request.location = "" →
      (query_everywhere_tourguide request location).location =
        location.city ++ ", " ++ location.country) := by
  constructor
  · intro h
    simp [query_everywhere_tourguide, if_pos h]
  · intro h
    simp [query_everywhere_tourguide, if_pos h]

/-- Witness for C10 at a concrete request with lat 0 and empty location. -/
theorem tourguide_fills_defaults_witness :
    (query_everywhere_tourguide ⟨"b", "m", "", 0, 5⟩
        ⟨"Berkeley", "US", (37, -122)⟩).lat = 37 ∧
    (query_everywhere_tourguide ⟨"b", "m", "", 0, 5⟩
        ⟨"Berkeley", "US", (37, -122)⟩).lon = -122 ∧
    (query_everywhere_tourguide ⟨"b", "m", "", 0, 5⟩
        ⟨"Berkeley", "US", (37, -122)⟩).location =
      "Berkeley" ++ ", " ++ "US" := by
  have h := tourguide_fills_defaults ⟨"b", "m", "", 0, 5⟩
    ⟨"Berkeley", "US", (37, -122)⟩
  exact ⟨(h.1 (Or.inl rfl)).1, (h.1 (Or.inl rfl)).2, h.2 rfl⟩

/-- C1: for a /query_assistant request whose query_type is none of trip,
restaurant, place, generate_response yields exactly the single terminal
invalid-query-type message, leaves the shared assistant untouched (no tools
defined, no tool executed) and never starts the assistant loop: the result is
the same for every possible loop behaviour runAssistant. -/
theorem generate_response_invalid_query_type (assistant : Assistant)
    (query : Query) (location_str preferences_str : String)
    (runAssistant : Assistant → String → List String)
    (h1 : query.query_type ≠ "trip") (h2 : query.query_type ≠ "restaurant")
    (h3 : query.query_type ≠ "place") :
    generate_response assistant query location_str preferences_str
        runAssistant =
      (assistant, [invalidQueryTypeMessage query.query_type]) := by
  simp [generate_response, setupAssistant, h1, h2, h3]

/-- Witness for C1 at the unsupported query_type "hotel". -/
theorem generate_response_invalid_query_type_witness :
    generate_response ⟨"", []⟩ ⟨"hotel", "find a room"⟩ "Seattle, US" ""
        (fun a q => [a.system, q]) =
      (⟨"", []⟩, [invalidQueryTypeMessage "hotel"]) :=
  generate_response_invalid_query_type _ _ _ _ _
    (by decide) (by decide) (by decide)

/-- C3: each /query_assistant request fixes the system prompt and active tool
set once, before its assistant loop starts: a trip query selects exactly
SearchInternet, ReadWebsite, Geocode, GetDistanceMatrix, OptimizeRoute with
the trip system prompt; a restaurant or place query selects exactly
SearchInternet, ReadWebsite, SearchForNearbyPlacesOfType with the formatted
restaurant/place prompt; and the streamed chunks are those of the loop run on
exactly that configured assistant. -/
theorem generate_response_tool_selection (assistant : Assistant)
    (query : Query) (location_str preferences_str : String)
    (runAssistant : Assistant → String → List String) :
    (query.query_type = "trip" →
      (generate_response assistant query location_str preferences_str
          runAssistant).1.tools =
        [Tool.SearchInternet, Tool.ReadWebsite, Tool.Geocode,
         Tool.GetDistanceMatrix, Tool.OptimizeRoute] ∧
      (generate_response assistant query location_str preferences_str
          runAssistant).1.system = system_trip ∧
      (generate_response assistant query location_str preferences_str
          runAssistant).2 =
        runAssistant
          (generate_response assistant query location_str preferences_str
            runAssistant).1 query.query) ∧
    ((query.query_type = "restaurant" ∨ query.query_type = "place") →
      (generate_response assistant query location_str preferences_str
          runAssistant).1.tools =
        [Tool.SearchInternet, Tool.ReadWebsite,
         Tool.SearchForNearbyPlacesOfType] ∧
      (generate_response assistant query location_str preferences_str
          runAssistant).1.system =
        system_restaurant_place query.query_type location_str
          preferences_str ∧
      (generate_response assistant query location_str preferences_str
          runAssistant).2 =
        runAssistant
          (generate_response assistant query location_str preferences_str
            runAssistant).1 query.query) := by
  constructor
  · intro h
    simp [generate_response, setupAssistant, h, tripTools]
  · intro h
    have hne : query.query_type ≠ "trip" := by
      rcases h with h | h <;> rw [h] <;> decide
    simp [generate_response, setupAssistant, hne, h, restaurantPlaceTools]

/-- Witness for C3 at a concrete trip query and a concrete place query. -/
theorem generate_response_tool_selection_witness :
    (generate_response ⟨"", []⟩ ⟨"trip", "to Rome"⟩ "Seattle, US" ""
        (fun _ q => [q])).1.tools =
      [Tool.SearchInternet, Tool.ReadWebsite, Tool.Geocode,
       Tool.GetDistanceMatrix, Tool.OptimizeRoute] ∧
    (generate_response ⟨"", []⟩ ⟨"place", "a park"⟩ "Seattle, US" ""
        (fun _ q => [q])).1.tools =
      [Tool.SearchInternet, Tool.ReadWebsite,
       Tool.SearchForNearbyPlacesOfType] := by
  have h1 := generate_response_tool_selection ⟨"", []⟩ ⟨"trip", "to Rome"⟩
    "Seattle, US" "" (fun _ q => [q])
  have h2 := generate_response_tool_selection ⟨"", []⟩ ⟨"place", "a park"⟩
    "Seattle, US" "" (fun _ q => [q])
  exact ⟨(h1.1 rfl).1, (h2.2 (Or.inr rfl)).1⟩

/-- C6: every /query_assistant request is answered with a streaming response
of media type text/plain whose chunks are exactly those generate_response
yields incrementally. -/
theorem query_assistant_streams_plain_text (assistant : Assistant)
    (user_preferences : List String) (g : GeoResult) (query : Query)
    (runAssistant : Assistant → String → List String) :
    (query_assistant assistant user_preferences g query
        runAssistant).2.media_type = "text/plain" ∧
    (query_assistant assistant user_preferences g query
        runAssistant).2.chunks =
      (generate_response assistant query (g.city ++ ", " ++ g.country)
        (String.intercalate ", " user_preferences) runAssistant).2 :=
  ⟨rfl, rfl⟩

/-- C9: an unsupported query_type still gets a successful (status 200)
streaming response of media type text/plain whose body is the single
invalid-query-type message: the error is carried in the stream body, not in
the HTTP status. -/
theorem query_assistant_invalid_type_http (assistant : Assistant)
    (user_preferences : List String) (g : GeoResult) (query : Query)
    (runAssistant : Assistant → String → List String)
    (h1 : query.query_type ≠ "trip") (h2 : query.query_type ≠ "restaurant")
    (h3 : query.query_type ≠ "place") :
    (query_assistant assistant user_preferences g query runAssistant).2 =
      { media_type := "text/plain", status_code := 200,
        chunks := [invalidQueryTypeMessage query.query_type] } := by
  simp [query_assistant, generate_response, setupAssistant, h1, h2, h3]

/-- Witness for C9 at the unsupported query_type "flight". -/
theorem query_assistant_invalid_type_http_witness :
    (query_assistant ⟨"", []⟩ ["vegan"] ⟨"Seattle", "US", (47, -122)⟩
        ⟨"flight", "to Rome"⟩ (fun _ q => [q])).2 =
      { media_type := "text/plain", status_code := 200,
        chunks := [invalidQueryTypeMessage "flight"] } :=
  query_assistant_invalid_type_http _ _ _ _ _
    (by decide) (by decide) (by decide)

/-- C2 counterexample: the module-level assistant is one shared object.  With
a concurrent trip request and restaurant request, the shared active tool set
after the restaurant request's setup differs from the set the trip request
resolved at its own start, so the trip request's invocation does not own its
active tool set exclusively. -/
theorem shared_assistant_counterexample :
    ¬ ((sharedAssistantAfterSetups ⟨"", []⟩ ⟨"trip", "plan a weekend trip"⟩
          ⟨"restaurant", "find pasta"⟩ "Seattle, US" "").2 =
        (sharedAssistantAfterSetups ⟨"", []⟩ ⟨"trip", "plan a weekend trip"⟩
          ⟨"restaurant", "find pasta"⟩ "Seattle, US" "").1) := by
  decide

/-- C2 amended: the Assistant and its active tool set are one process-wide
object shared by all /query_assistant requests; each request's setup mutates
that shared object, so when a trip request's setup is followed by a concurrent
restaurant or place request's setup, the shared active tool set becomes the
restaurant/place set while the trip request is still streaming — the active
set is resolved from the shared object, not fixed per invocation. -/
theorem shared_assistant_clobbered (init : Assistant) (q1 q2 : Query)
    (location_str preferences_str : String)
    (h1 : q1.query_type = "trip")
    (h2 : q2.query_type = "restaurant" ∨ q2.query_type = "place") :
    (sharedAssistantAfterSetups init q1 q2 location_str preferences_str).1 =
      tripTools ∧
    (sharedAssistantAfterSetups init q1 q2 location_str preferences_str).2 =
      restaurantPlaceTools := by
  have hne : q2.query_type ≠ "trip" := by
    rcases h2 with h | h <;> rw [h] <;> decide
  constructor <;>
    simp [sharedAssistantAfterSetups, setupAssistant, h1, h2, hne]

/-- Witness for the amended C2 at concrete trip and restaurant queries. -/
theorem shared_assistant_clobbered_witness :
    (sharedAssistantAfterSetups ⟨"", []⟩ ⟨"trip", "plan"⟩ ⟨"restaurant", "eat"⟩
        "Seattle, US" "vegan").1 = tripTools ∧
    (sharedAssistantAfterSetups ⟨"", []⟩ ⟨"trip", "plan"⟩ ⟨"restaurant", "eat"⟩
        "Seattle, US" "vegan").2 = restaurantPlaceTools :=
  shared_assistant_clobbered _ _ _ _ _ rfl (Or.inl rfl)

/-- Helper for C4: the loop performs no more model rounds than it has fuel. -/
theorem assistantLoopRounds_bound (model : Nat → ModelTurn) (fuel round : Nat) :
    (assistantLoopRounds model fuel round).2 ≤ fuel := by
  induction fuel generalizing round with
  | zero => simp [assistantLoopRounds]
  | succ n ih =>
    cases h : model round with
    | final t => simp [assistantLoopRounds, h]
    | toolCalls reqs =>
      simp only [assistantLoopRounds, h]
      exact Nat.succ_le_succ (ih (round + 1))

/-- Helper for C4: a model that requests tool calls in every round exhausts
the fuel and the loop ends Failed with LoopLimitExceeded. -/
theorem assistantLoopRounds_allToolCalls (model : Nat → ModelTurn)
    (h : ∀ r, ∃ reqs, model r = ModelTurn.toolCalls reqs) (fuel round : Nat) :
    (assistantLoopRounds model fuel round).1 =
      LoopOutcome.failedLoopLimitExceeded := by
  induction fuel generalizing round with
  | zero => rfl
  | succ n ih =>
    obtain ⟨reqs, hr⟩ := h round
    simp [assistantLoopRounds, hr, ih]

/-- C4: the Assistant Loop performs at most the configured maximum number of
rounds, and given a model that requests another tool call in every round it
reaches Failed with LoopLimitExceeded rather than running indefinitely. -/
theorem assistant_loop_round_limit (model : Nat → ModelTurn) (maxRounds : Nat) :
    (runAssistantLoop model maxRounds).2 ≤ maxRounds ∧
    ((∀ r, ∃ reqs, model r = ModelTurn.toolCalls reqs) →
      (runAssistantLoop model maxRounds).1 =
        LoopOutcome.failedLoopLimitExceeded) :=
  ⟨assistantLoopRounds_bound model maxRounds 0,
   fun h => assistantLoopRounds_allToolCalls model h maxRounds 0⟩

/-- Witness for C4: an always-tool-calling model with the spec's example
maximum of 10 rounds ends Failed with LoopLimitExceeded within 10 rounds. -/
theorem assistant_loop_round_limit_witness :
    (runAssistantLoop (fun _ => ModelTurn.toolCalls ["SearchInternet"]) 10).2
        ≤ 10 ∧
    (runAssistantLoop (fun _ => ModelTurn.toolCalls ["SearchInternet"]) 10).1 =
      LoopOutcome.failedLoopLimitExceeded := by
  have h := assistant_loop_round_limit
    (fun _ => ModelTurn.toolCalls ["SearchInternet"]) 10
  exact ⟨h.1, h.2 (fun r => ⟨["SearchInternet"], rfl⟩)⟩

/-- Helper for C5: looking up a request index in the completion-ordered
results yields that request's executed result, whatever the completion
order. -/
theorem lookup_completeInOrder (requests : List ToolCallRequest)
    (execute : ToolCallRequest → ToolCallResult) (order : List Nat) (i : Nat)
    (hmem : i ∈ order) (hlt : ∀ j ∈ order, j < requests.length) :
    (completeInOrder requests execute order).lookup i =
      (requests.get? i).map execute := by
  induction order with
  | nil => cases hmem
  | cons j order ih =>
    have hj : j < requests.length := hlt j (List.mem_cons_self _ _)
    obtain ⟨r, hr⟩ : ∃ r, requests[j]? = some r :=
      ⟨_, List.getElem?_eq_getElem hj⟩
    by_cases hij : i = j
    · subst hij
      simp [completeInOrder, List.filterMap_cons, hr, List.lookup_cons]
    · have hmem2 : i ∈ order := by
        rcases List.mem_cons.mp hmem with h | h
        · exact absurd h hij
        · exact h
      have hrec := ih hmem2 (fun k hk => hlt k (List.mem_cons_of_mem _ hk))
      have hbeq : (i == j) = false := beq_false_of_ne hij
      simpa [completeInOrder, List.filterMap_cons, hr, List.lookup_cons, hbeq]
        using hrec

/-- Helper for C5: a filterMap over the index range of a list that yields
some mapped element at every index reproduces the mapped list. -/
theorem range_filterMap_of_get {α β : Type} (l : List α) (F : Nat → Option β)
    (G : α → β)
    (hF : ∀ (i : Nat) (h : i < l.length), F i = some (G (l.get ⟨i, h⟩))) :
    (List.range l.length).filterMap F = l.map G := by
  induction l generalizing F with
  | nil => simp
  | cons a l ih =>
    have h0 : F 0 = some (G a) := hF 0 (Nat.succ_pos _)
    rw [List.length_cons, List.range_succ_eq_map]
    simp only [List.filterMap_cons, h0, List.filterMap_map]
    rw [List.map_cons]
    congr 1
    exact ih (F ∘ Nat.succ) (fun i h => hF (i + 1) (Nat.succ_lt_succ h))

/-- C5: when the model issues N tool-call requests in one turn, the
Conversation gains exactly the N tool-result messages, ordered as the N
requests were issued, for every completion order of the underlying concurrent
executions. -/
theorem tool_results_in_request_order (conversation : List Message)
    (requests : List ToolCallRequest)
    (execute : ToolCallRequest → ToolCallResult) (order : List Nat)
    (hperm : order.Perm (List.range requests.length)) :
    appendToolResults conversation requests
        (completeInOrder requests execute order) =
      conversation ++
        requests.map (fun r => Message.toolResult (execute r)) := by
  unfold appendToolResults
  congr 1
  apply range_filterMap_of_get
  intro i h
  have hmem : i ∈ order := hperm.mem_iff.mpr (List.mem_range.mpr h)
  have hlt : ∀ j ∈ order, j < requests.length := fun j hj =>
    List.mem_range.mp (hperm.mem_iff.mp hj)
  rw [lookup_completeInOrder requests execute order i hmem hlt,
    List.get?_eq_get h]
  rfl

/-- Witness for C5: two requests completed in reversed order still enter the
conversation in request order. -/
theorem tool_results_in_request_order_witness :
    ([1, 0] : List Nat).Perm (List.range 2) ∧
    appendToolResults [Message.user "find pasta"]
        [⟨"SearchInternet", "pasta"⟩, ⟨"ReadWebsite", "url"⟩]
        (completeInOrder
          [⟨"SearchInternet", "pasta"⟩, ⟨"ReadWebsite", "url"⟩]
          (fun r => ⟨r.toolName, r.arguments⟩) [1, 0]) =
      [Message.user "find pasta",
       Message.toolResult ⟨"SearchInternet", "pasta"⟩,
       Message.toolResult ⟨"ReadWebsite", "url"⟩] := by
  have hperm : ([1, 0] : List Nat).Perm (List.range 2) := by decide
  refine ⟨hperm, ?_⟩
  rw [tool_results_in_request_order [Message.user "find pasta"]
    [⟨"SearchInternet", "pasta"⟩, ⟨"ReadWebsite", "url"⟩]
    (fun r => ⟨r.toolName, r.arguments⟩) [1, 0] hperm]
  rfl

end Swag






